import Mathlib

/-!
Verification development for the `deployml` training orchestrator
(`deployml/keras/train/training.py`, class `TrainingBase`).

The Python class wraps an external model object and a tabular dataset and
sequences: feature/target separation, a seeded train/test split, optional
SMOTE resampling, optional feature scaling, and delegated model fitting.
All external library calls (pandas, sklearn, imblearn, keras) are modelled
by executable Lean functions that capture the behaviour the orchestrator
relies on; transforms of the opaque scaler objects are modelled
symbolically, tagging each value with the scaler kind and fitted
parameters, since the repository never inspects the numeric output of a
transform.

Python exceptions are modelled by `LibError` (errors raised inside the
external libraries and surfaced unchanged by this file's code).  The
specification additionally names an error taxonomy (`NotTrainedError`,
`ResampleError`, `ConfigurationError`, `ShapeMismatchError`); those
constructors are modelled from the spec so the corresponding claims can be
stated, and the embedding shows which of them the code can actually raise.

Methods are embedded in state-passing style: a method returns the state of
the object when control leaves the method (Python objects keep the field
assignments executed before an exception is raised) together with
`Option PyError` (`none` = normal return, `some e` = exception `e`).
The plotting helpers (`show_learning_curve`, `show_roc_curve`) and
`evaluate_cross_validation` are rendering/diagnostic only and are not
referenced by any claim, so they are not embedded.
-/

namespace DeployML

/-- Errors raised by the external libraries (pandas / numpy / sklearn /
imblearn / keras) while executing the orchestrator's calls.  Python error
messages are irrelevant to every claim, so constructors carry no payload. -/
inductive LibError : Type
  | attributeError
  | typeError
  | valueError
  | keyError
  | indexError
deriving DecidableEq, Repr

/-- Exceptions observable from the orchestrator.  `lib e` is an error of an
external library propagating through the orchestrator (the only errors the
code in `training.py` can surface).  The remaining constructors are
modelled from the spec: its §7 error taxonomy names `NotTrainedError`,
`ResampleError`, `ConfigurationError` and `ShapeMismatchError`; no such
classes appear in the source, and the embedding never constructs them
except `configurationError` inside the spec-modelled `configure`. -/
inductive PyError : Type
  | lib (e : LibError)
  | notTrainedError
  | resampleError
  | configurationError
  | shapeMismatchError
deriving DecidableEq, Repr

/-- The three scaler variants the `scale` branch of `train` recognises. -/
inductive ScalerKind : Type
  | standard
  | minMax
  | normalizeKind
deriving DecidableEq, Repr

/-- A feature value.  `num x` is a raw numeric entry of the dataset;
`scaled k p e` is the (opaque) result of applying the transform of a
scaler of kind `k` fitted on parameters `p` to the value `e`.  The
orchestrator never inspects transformed values, so the transform is
modelled symbolically: the tag records exactly which scaler, fitted on
what, was applied to what. -/
inductive Entry : Type
  | num (x : Int)
  | scaled (kind : ScalerKind) (params : List (List Int)) (e : Entry)
deriving DecidableEq, Repr

/-- The raw numeric value underneath any stack of applied transforms. -/
def Entry.base : Entry → Int
  | .num x => x
  | .scaled _ _ e => e.base

/-- A scaler object (sklearn estimator): its kind plus, once `fit` has run,
the learned parameters, modelled as the raw matrix it was fitted on. -/
structure Scaler : Type where
  kind : ScalerKind
  fittedParams : Option (List (List Int))
deriving DecidableEq, Repr

/-- `sklearn.preprocessing.StandardScaler()` — a fresh, unfitted scaler. -/
def StandardScaler : Scaler := ⟨ScalerKind.standard, none⟩

/-- `sklearn.preprocessing.MinMaxScaler()` — a fresh, unfitted scaler. -/
def MinMaxScaler : Scaler := ⟨ScalerKind.minMax, none⟩

/-- `scaler.fit(X)`: learn parameters from the matrix `X` (the raw values
underneath its entries). -/
def Scaler.fit (sc : Scaler) (X : List (List Entry)) : Scaler :=
  ⟨sc.kind, some (X.map (fun r => r.map Entry.base))⟩

/-- `scaler.transform(row)` for a single input row.  sklearn raises a
`NotFittedError` (a `ValueError`) when the scaler was never fitted. -/
def Scaler.transformRow (sc : Scaler) (r : List Entry) : Except LibError (List Entry) :=
  match sc.fittedParams with
  | none => .error .valueError
  | some p => .ok (r.map (Entry.scaled sc.kind p))

/-- `scaler.transform(X)` for a matrix. -/
def Scaler.transformMatrix (sc : Scaler) (m : List (List Entry)) :
    Except LibError (List (List Entry)) :=
  match sc.fittedParams with
  | none => .error .valueError
  | some p => .ok (m.map (fun r => r.map (Entry.scaled sc.kind p)))

/-- The per-epoch fit history returned by `model.fit` (keras `History`),
kept as named metric curves. -/
abbrev History := List (String × List Rat)

/-- The wrapped external model object: the orchestrator only calls its
`fit`, `predict` and `predict_classes` operations (spec §3: it is opaque,
"never inspect[ed] ... beyond calling its fit/predict operations").
`predict_classes` receives whatever is stored in `X_test`, which is `None`
before training, hence the `Option` argument. -/
structure Model : Type where
  fit : List (List Entry) → List Int → Rat → Nat → Nat → Nat → History
  predict : List (List Entry) → List (List Rat)
  predict_classes : Option (List (List Entry)) → Except LibError (List Int)

/-- A pandas DataFrame: named columns and numeric rows. -/
structure DataFrame : Type where
  cols : List String
  rows : List (List Int)
deriving DecidableEq, Repr

/-- Index of a column label in a list of labels (first occurrence). -/
def colIdx : List String → String → Option Nat
  | [], _ => none
  | x :: xs, c => if x = c then some 0 else (colIdx xs c).map (· + 1)

/-- `data.drop(c, axis=1)`: the DataFrame without column `c` (pandas
returns a copy; `data` itself is untouched). -/
def featureDF (d : DataFrame) (j : Nat) : DataFrame :=
  ⟨d.cols.eraseIdx j, d.rows.map (fun r => r.eraseIdx j)⟩

/-- `data[c]`: the designated outcome column as a value series. -/
def targetCol (d : DataFrame) (j : Nat) : List Int :=
  d.rows.map (fun r => r.getD j 0)

/-- The orchestrator's instance state: one field per attribute assigned in
`TrainingBase.__init__` (`training.py` lines 22-46).  Attributes that start
as `None` are `Option`s. -/
structure State : Type where
  model : Model
  auc : Rat
  cross_val : Rat
  data : Option DataFrame
  outcome_pointer : Option String
  X : Option DataFrame
  scaled_inputs : Bool
  scaling_tool : Option Scaler
  y : Option (List Int)
  X_train : Option (List (List Entry))
  X_test : Option (List (List Entry))
  y_train : Option (List Int)
  y_test : Option (List Int)
  outcome_metrics : Option Unit
  predictions : Option (List Int)
  trained : Bool
  history : Option History
  X_report : Option (List (List Entry))
  y_report : Option (List Int)
  general_report : String
  scaling_title : Option String
  input_order : Option (List String)
  support_vector : Bool
  best_epoch : Option Nat
  best_model : Option Model

/-- `TrainingBase.__init__(selected_model)`: every attribute at its initial
value (`training.py` lines 14-46). -/
def TrainingBase.init (selected_model : Model) : State where
  model := selected_model
  auc := 0
  cross_val := 0
  data := none
  outcome_pointer := none
  X := none
  scaled_inputs := false
  scaling_tool := none
  y := none
  X_train := none
  X_test := none
  y_train := none
  y_test := none
  outcome_metrics := none
  predictions := none
  trained := false
  history := none
  X_report := none
  y_report := none
  general_report := "General Report not generated when model was trained"
  scaling_title := none
  input_order := none
  support_vector := false
  best_epoch := none
  best_model := none

/-- Modelled from the spec: the `configure(dataset, outcome_column)`
operation (spec §4.1) binds the dataset and designates the target column,
failing with `ConfigurationError` when the column is absent.  The file
that defines it in the repository is not under `src/`; only
`training.py`'s reads of `self.data` and `self.outcome_pointer` are. -/
def configure (s : State) (d : DataFrame) (c : String) : State × Option PyError :=
  if c ∈ d.cols then
    ({ s with data := some d, outcome_pointer := some c }, none)
  else
    (s, some PyError.configurationError)

/-- One step of the pseudo-random stream behind the seeded shuffle
(`random_state=101` in the source): a standard linear congruential
generator.  sklearn's Mersenne generator is opaque external code; the
claims depend only on the split being a deterministic permutation-based
partition, which any concrete generator realises. -/
def lcgNext (s : Nat) : Nat := (1103515245 * s + 12345) % 4294967296

/-- Fisher–Yates-style seeded shuffle, fuelled by the list length. -/
def shuffleFuel : Nat → Nat → List Nat → List Nat
  | 0, _, _ => []
  | _ + 1, _, [] => []
  | f + 1, r, x :: xs =>
    let l := x :: xs
    let i := r % l.length
    l.getD i 0 :: shuffleFuel f (lcgNext r) (l.eraseIdx i)

/-- Deterministic seeded shuffle of a list (the randomness of
`train_test_split` at a fixed `random_state`). -/
def shuffle (r : Nat) (l : List Nat) : List Nat := shuffleFuel l.length r l

/-- Number of test rows for `test_size=0.33` on `n` rows: sklearn takes
`ceil(0.33 * n)`. -/
def testCount (n : Nat) : Nat := (33 * n + 99) / 100

/-- Row indices assigned to the test set by
`train_test_split(..., test_size=0.33, random_state=101)`. -/
def testIdx (n : Nat) : List Nat := (shuffle 101 (List.range n)).take (testCount n)

/-- Row indices assigned to the training set by the same split. -/
def trainIdx (n : Nat) : List Nat := (shuffle 101 (List.range n)).drop (testCount n)

/-- Number of feature rows the split operates on. -/
def nRows (d : DataFrame) (j : Nat) : Nat := (featureDF d j).rows.length

/-- `X_train` as produced by the split (before resampling/scaling). -/
def xtrain0 (d : DataFrame) (j : Nat) : List (List Entry) :=
  (trainIdx (nRows d j)).map (fun i => ((featureDF d j).rows.getD i []).map Entry.num)

/-- `X_test` as produced by the split. -/
def xtest0 (d : DataFrame) (j : Nat) : List (List Entry) :=
  (testIdx (nRows d j)).map (fun i => ((featureDF d j).rows.getD i []).map Entry.num)

/-- `y_train` as produced by the split. -/
def ytrain0 (d : DataFrame) (j : Nat) : List Int :=
  (trainIdx (nRows d j)).map (fun i => (targetCol d j).getD i 0)

/-- `y_test` as produced by the split. -/
def ytest0 (d : DataFrame) (j : Nat) : List Int :=
  (testIdx (nRows d j)).map (fun i => (targetCol d j).getD i 0)

/-- `SMOTE(ratio=rr).fit_sample(X, y)` (imblearn).  A float ratio must lie
in `(0, 1]` and only applies to binary problems; the target minority count
is `int(ratio * majority)`, and when no sample would be generated —
classes already balanced at the requested ratio — imblearn raises a
`ValueError`.  Synthetic minority interpolation is external library
internals the claims never touch; generated rows are modelled as copies of
the first minority row. -/
def smote_fit_sample (rr : Rat) (X : List (List Entry)) (y : List Int) :
    Except LibError (List (List Entry) × List Int) :=
  if rr ≤ 0 ∨ 1 < rr then .error .valueError
  else
    let classes := y.dedup
    if classes.length = 2 then
      let c0 := classes.getD 0 0
      let c1 := classes.getD 1 0
      let n0 := y.count c0
      let n1 := y.count c1
      let cmin := if n0 ≤ n1 then c0 else c1
      let nmin := min n0 n1
      let nmaj := max n0 n1
      -- `int(ratio * majority)`: `rr` is positive here, so truncation is
      -- floor division of its numerator times `nmaj` by its denominator
      let target : Nat := rr.num.toNat * nmaj / rr.den
      if target ≤ nmin then .error .valueError
      else
        let minRows := (List.zip X y).filterMap
          (fun p => if p.2 = cmin then some p.1 else none)
        .ok (X ++ List.replicate (target - nmin) (minRows.getD 0 []),
             y ++ List.replicate (target - nmin) cmin)
    else .error .valueError

/-- The scaler branch of `train` (`training.py` lines 71-83) after the
`self.scaling_tool` selection: `self.scaling_tool.fit(self.X_train)`, then
transform of `X_train` and `X_test` in that order.  Attribute access on a
`None` tool raises `AttributeError`; each field assignment before a raise
is kept. -/
def fitAndTransform (s : State) (xtr xte : List (List Entry)) : State × Option PyError :=
  match s.scaling_tool with
  | none => (s, some (PyError.lib .attributeError))
  | some sc =>
    let sc2 := sc.fit xtr
    let s7 := { s with scaling_tool := some sc2 }
    match sc2.transformMatrix xtr with
    | .error e => (s7, some (PyError.lib e))
    | .ok a =>
      let s8 := { s7 with X_train := some a }
      match sc2.transformMatrix xte with
      | .error e => (s8, some (PyError.lib e))
      | .ok b => ({ s8 with X_test := some b }, none)

/-- The whole `if scale: ... else: self.scaled_inputs = False` block of
`train` (`training.py` lines 71-83).  On the `'normalize'` branch the
source evaluates `normalize()` — `sklearn.preprocessing.normalize` is a
function whose first positional argument is mandatory, so the call raises
`TypeError` before anything is assigned to `self.scaling_tool`.  On an
unrecognised string no branch assigns `self.scaling_tool`, so `fit` runs
on whatever that attribute already held. -/
def scaleStep (s : State) (scale : Bool) (tool : String)
    (xtr xte : List (List Entry)) : State × Option PyError :=
  if scale then
    let s5 := { s with scaled_inputs := true }
    if tool = "standard" then
      fitAndTransform { s5 with scaling_tool := some StandardScaler } xtr xte
    else if tool = "min max" then
      fitAndTransform { s5 with scaling_tool := some MinMaxScaler } xtr xte
    else if tool = "normalize" then
      (s5, some (PyError.lib .typeError))
    else
      fitAndTransform s5 xtr xte
  else
    ({ s with scaled_inputs := false }, none)

/-- The state of the orchestrator right after the split assignments of
`train` (`training.py` lines 57-62): `self.X`, `self.y`,
`self.input_order` and the four split fields. -/
def postSplit (s : State) (d : DataFrame) (j : Nat) : State :=
  { s with
    X := some (featureDF d j)
    y := some (targetCol d j)
    input_order := some (featureDF d j).cols
    X_train := some (xtrain0 d j)
    X_test := some (xtest0 d j)
    y_train := some (ytrain0 d j)
    y_test := some (ytest0 d j) }

/-- The state after the (possibly trivial) resampling assignments and the
`X_report`/`y_report` copies (`training.py` lines 64-69); `xy` is the
current `(X_train, y_train)` pair. -/
def postResample (s : State) (d : DataFrame) (j : Nat)
    (xy : List (List Entry) × List Int) : State :=
  { postSplit s d j with
    X_train := some xy.1
    y_train := some xy.2
    X_report := some (xtest0 d j)
    y_report := some (ytest0 d j) }

/-- Body of `train` once `self.data` is a frame `d` whose columns contain
`self.outcome_pointer` at index `j` (`training.py` lines 57-86): feature /
target separation, seeded split, optional resampling, report copies,
optional scaling, delegated fit with `validation_split=0.33`. -/
def trainBody (s : State) (d : DataFrame) (j : Nat)
    (scale : Bool) (scaling_tool : String) (resample : Bool) (resampleArg : Rat)
    (epochs batch_size verbose : Nat) : State × Option PyError :=
  match (if resample then smote_fit_sample resampleArg (xtrain0 d j) (ytrain0 d j)
         else .ok (xtrain0 d j, ytrain0 d j)) with
  | .error e => (postSplit s d j, some (PyError.lib e))
  | .ok xy =>
    match scaleStep (postResample s d j xy) scale scaling_tool xy.1 (xtest0 d j) with
    | (s9, some e) => (s9, some e)
    | (s9, none) =>
      let h := s9.model.fit (s9.X_train.getD []) (s9.y_train.getD [])
        ((33 : Rat) / 100) epochs batch_size verbose
      ({ s9 with history := some h }, none)

/-- `TrainingBase.train(scale, scaling_tool, resample, resample_ratio,
epochs, batch_size, verbose)` (`training.py` lines 48-86).  A `None`
dataset fails at `self.data.drop` with `AttributeError`; a missing outcome
column fails there with `KeyError` before any field is assigned. -/
def train (s : State) (scale : Bool) (scaling_tool : String)
    (resample : Bool) (resampleArg : Rat) (epochs batch_size verbose : Nat) :
    State × Option PyError :=
  match s.data with
  | none => (s, some (PyError.lib .attributeError))
  | some d =>
    match s.outcome_pointer with
    | none => (s, some (PyError.lib .keyError))
    | some c =>
      match colIdx d.cols c with
      | none => (s, some (PyError.lib .keyError))
      | some j => trainBody s d j scale scaling_tool resample resampleArg
          epochs batch_size verbose

/-- `sklearn.metrics.classification_report(y_true, y_pred)`: its return
value is a single human-readable string (the default `output_dict=False`);
`y_true = None` fails inside sklearn. -/
def classification_report (yTrue : Option (List Int)) (yPred : List Int) :
    Except LibError String :=
  match yTrue with
  | none => .error .typeError
  | some yt => .ok ("classification_report " ++ toString yt ++ " " ++ toString yPred)

/-- Outcome of a call to `evaluate_outcome`: the object state on exit, the
exception if one escaped, the Python return value of the method (`none`
models Python's `None`), and the lines printed. -/
structure EvalResult : Type where
  state : State
  error : Option PyError
  ret : Option (List Int)
  printed : List String

/-- `TrainingBase.evaluate_outcome()` (`training.py` lines 133-142):
`predict_classes` over `self.X_test`, the classification report stored in
`self.general_report` and printed.  The method body contains no `return`
statement, so its Python return value is `None`. -/
def evaluate_outcome (s : State) : EvalResult :=
  match s.model.predict_classes s.X_test with
  | .error e => ⟨s, some (PyError.lib e), none, []⟩
  | .ok preds =>
    let s1 := { s with predictions := some preds }
    match classification_report s1.y_test preds with
    | .error e => ⟨s1, some (PyError.lib e), none, []⟩
    | .ok rep =>
      ⟨{ s1 with general_report := rep }, none, none, [rep]⟩

/-- `model.predict([input_array])[0][0]`: double indexing into the
prediction array, `IndexError` when a dimension is empty. -/
def index00 (m : List (List Rat)) : Except LibError Rat :=
  match m with
  | [] => .error .indexError
  | r :: _ =>
    match r with
    | [] => .error .indexError
    | x :: _ => .ok x

/-- `TrainingBase.calculate(input_array, happening, override)`
(`training.py` lines 157-171): scale the row when `self.scaled_inputs and
not override`, then return `self.model.predict([input_array])[0][0]` —
from both branches of the `if happening` conditional, exactly as in the
source. -/
def calculate (s : State) (input_array : List Entry) (happening override : Bool) :
    Except PyError Rat :=
  let step : Except PyError (List Entry) :=
    if s.scaled_inputs && !override then
      match s.scaling_tool with
      | none => .error (PyError.lib .attributeError)
      | some sc => (sc.transformRow input_array).mapError PyError.lib
    else .ok input_array
  match step with
  | .error e => .error e
  | .ok arr =>
    if happening then (index00 (s.model.predict [arr])).mapError PyError.lib
    else (index00 (s.model.predict [arr])).mapError PyError.lib

/-- Equality of modelled library results is decidable, so the embedding
can be evaluated on concrete inputs. -/
instance {ε α : Type} [DecidableEq ε] [DecidableEq α] : DecidableEq (Except ε α)
  | .error e1, .error e2 =>
    if h : e1 = e2 then .isTrue (by rw [h]) else .isFalse (by simp [h])
  | .error _, .ok _ => .isFalse (by simp)
  | .ok _, .error _ => .isFalse (by simp)
  | .ok a1, .ok a2 =>
    if h : a1 = a2 then .isTrue (by rw [h]) else .isFalse (by simp [h])

/-! ### Concrete instances used to evaluate the embedding -/

/-- A concrete keras-like model: `fit` yields one loss value per epoch,
`predict` a single probability, and `predict_classes` the constant class 1
— except on `None` input (the untrained `X_test`), where keras raises a
`ValueError` while preparing the input tensors. -/
def demoModel : Model where
  fit := fun _ _ _ ep _ _ => [("loss", List.replicate ep 1)]
  predict := fun _ => [[1 / 2]]
  predict_classes := fun o =>
    match o with
    | none => .error .valueError
    | some X => .ok (X.map (fun _ => 1))

/-- A six-row dataset with one feature column `a` and a binary outcome
column `o`. -/
def demoDF : DataFrame :=
  ⟨["a", "o"], [[10, 0], [20, 1], [30, 0], [40, 1], [50, 0], [60, 1]]⟩

/-- A freshly constructed orchestrator bound to `demoDF` with outcome
column `o`. -/
def cDemo : State :=
  { TrainingBase.init demoModel with data := some demoDF, outcome_pointer := some "o" }

/-- Orchestrator after a first training run with scaling
(`train(scale=True, scaling_tool='standard')`). -/
def s1demo : State := (train cDemo true "standard" false 1 150 100 0).1

/-- The same orchestrator after a second, unscaled training run
(`train(scale=False)`). -/
def s2demo : State := (train s1demo false "standard" false 1 150 100 0).1

/-- Orchestrator after a single unscaled training run. -/
def tDemo : State := (train cDemo false "standard" false 1 150 100 0).1

/-- A fitted standard scaler lying around in memory. -/
def fittedStd : Scaler := ⟨ScalerKind.standard, some [[1], [2]]⟩

/-- A state whose scaling flag is set and which holds a fitted scaler. -/
def wit5 : State :=
  { TrainingBase.init demoModel with scaled_inputs := true, scaling_tool := some fittedStd }

/-! ### Projection lemmas for the intermediate states of `train` -/

@[simp] theorem postSplit_data (s : State) (d : DataFrame) (j : Nat) :
    (postSplit s d j).data = s.data := rfl

@[simp] theorem postSplit_outcome (s : State) (d : DataFrame) (j : Nat) :
    (postSplit s d j).outcome_pointer = s.outcome_pointer := rfl

@[simp] theorem postSplit_scaling_tool (s : State) (d : DataFrame) (j : Nat) :
    (postSplit s d j).scaling_tool = s.scaling_tool := rfl

@[simp] theorem postSplit_history (s : State) (d : DataFrame) (j : Nat) :
    (postSplit s d j).history = s.history := rfl

@[simp] theorem postResample_data (s : State) (d : DataFrame) (j : Nat)
    (xy : List (List Entry) × List Int) : (postResample s d j xy).data = s.data := rfl

@[simp] theorem postResample_outcome (s : State) (d : DataFrame) (j : Nat)
    (xy : List (List Entry) × List Int) :
    (postResample s d j xy).outcome_pointer = s.outcome_pointer := rfl

@[simp] theorem postResample_scaling_tool (s : State) (d : DataFrame) (j : Nat)
    (xy : List (List Entry) × List Int) :
    (postResample s d j xy).scaling_tool = s.scaling_tool := rfl

@[simp] theorem postResample_scaled_inputs (s : State) (d : DataFrame) (j : Nat)
    (xy : List (List Entry) × List Int) :
    (postResample s d j xy).scaled_inputs = s.scaled_inputs := rfl

@[simp] theorem postResample_history (s : State) (d : DataFrame) (j : Nat)
    (xy : List (List Entry) × List Int) :
    (postResample s d j xy).history = s.history := rfl

@[simp] theorem postResample_model (s : State) (d : DataFrame) (j : Nat)
    (xy : List (List Entry) × List Int) :
    (postResample s d j xy).model = s.model := rfl

@[simp] theorem postResample_X_train (s : State) (d : DataFrame) (j : Nat)
    (xy : List (List Entry) × List Int) :
    (postResample s d j xy).X_train = some xy.1 := rfl

@[simp] theorem postResample_X_test (s : State) (d : DataFrame) (j : Nat)
    (xy : List (List Entry) × List Int) :
    (postResample s d j xy).X_test = some (xtest0 d j) := rfl

@[simp] theorem postResample_y_train (s : State) (d : DataFrame) (j : Nat)
    (xy : List (List Entry) × List Int) :
    (postResample s d j xy).y_train = some xy.2 := rfl

@[simp] theorem postResample_y_test (s : State) (d : DataFrame) (j : Nat)
    (xy : List (List Entry) × List Int) :
    (postResample s d j xy).y_test = some (ytest0 d j) := rfl

@[simp] theorem postResample_X_report (s : State) (d : DataFrame) (j : Nat)
    (xy : List (List Entry) × List Int) :
    (postResample s d j xy).X_report = some (xtest0 d j) := rfl

@[simp] theorem postResample_y_report (s : State) (d : DataFrame) (j : Nat)
    (xy : List (List Entry) × List Int) :
    (postResample s d j xy).y_report = some (ytest0 d j) := rfl

/-! ### The seeded split is a permutation-based partition -/

theorem getD_cons_eraseIdx_perm :
    ∀ (l : List Nat) (i : Nat), i < l.length → (l.getD i 0 :: l.eraseIdx i).Perm l
  | _ :: _, 0, _ => by simp [List.eraseIdx]
  | x :: xs, i + 1, h => by
    have ih := getD_cons_eraseIdx_perm xs i (Nat.lt_of_succ_lt_succ (by simpa using h))
    exact (List.Perm.swap x (xs.getD i 0) (xs.eraseIdx i)).trans (ih.cons x)

theorem shuffleFuel_perm :
    ∀ (f r : Nat) (l : List Nat), l.length ≤ f → (shuffleFuel f r l).Perm l
  | 0, _, l, h => by
    have : l = [] := List.eq_nil_of_length_eq_zero (Nat.le_zero.mp h)
    simp [this, shuffleFuel]
  | _ + 1, _, [], _ => by simp [shuffleFuel]
  | f + 1, r, x :: xs, h => by
    have hi : r % (x :: xs).length < (x :: xs).length :=
      Nat.mod_lt _ (by simp)
    have hlen : ((x :: xs).eraseIdx (r % (x :: xs).length)).length ≤ f := by
      rw [List.length_eraseIdx_of_lt hi]
      simp only [List.length_cons] at h ⊢
      omega
    have ih := shuffleFuel_perm f (lcgNext r) ((x :: xs).eraseIdx (r % (x :: xs).length)) hlen
    simpa [shuffleFuel] using (ih.cons _).trans (getD_cons_eraseIdx_perm _ _ hi)

theorem shuffle_perm (r : Nat) (l : List Nat) : (shuffle r l).Perm l :=
  shuffleFuel_perm l.length r l (Nat.le_refl _)

theorem length_shuffle (r : Nat) (l : List Nat) : (shuffle r l).length = l.length :=
  (shuffle_perm r l).length_eq

theorem testCount_le (n : Nat) : testCount n ≤ n := by
  have h1 := Nat.div_add_mod (33 * n + 99) 100
  have h2 : (33 * n + 99) % 100 < 100 := Nat.mod_lt _ (by norm_num)
  unfold testCount
  omega

theorem testCount_bounds (n : Nat) :
    33 * n ≤ 100 * testCount n ∧ 100 * testCount n < 33 * n + 100 := by
  have h1 := Nat.div_add_mod (33 * n + 99) 100
  have h2 : (33 * n + 99) % 100 < 100 := Nat.mod_lt _ (by norm_num)
  unfold testCount
  omega

theorem length_testIdx (n : Nat) : (testIdx n).length = testCount n := by
  unfold testIdx
  rw [List.length_take, length_shuffle, List.length_range]
  exact Nat.min_eq_left (testCount_le n)

theorem length_trainIdx (n : Nat) : (trainIdx n).length = n - testCount n := by
  unfold trainIdx
  rw [List.length_drop, length_shuffle, List.length_range]

theorem split_partition_perm (n : Nat) :
    (testIdx n ++ trainIdx n).Perm (List.range n) := by
  unfold testIdx trainIdx
  rw [List.take_append_drop]
  exact shuffle_perm 101 (List.range n)

theorem disjoint_trainIdx_testIdx (n : Nat) :
    (trainIdx n).Disjoint (testIdx n) := by
  have hnd : (testIdx n ++ trainIdx n).Nodup :=
    ((split_partition_perm n).nodup_iff).mpr (List.nodup_range n)
  have hd := (List.nodup_append.mp hnd).2.2
  exact fun a ha hb => hd hb ha

theorem nRows_eq (d : DataFrame) (j : Nat) : nRows d j = d.rows.length := by
  unfold nRows featureDF
  simp

theorem length_ytrain0 (d : DataFrame) (j : Nat) :
    (ytrain0 d j).length = d.rows.length - testCount d.rows.length := by
  unfold ytrain0
  rw [List.length_map, length_trainIdx, nRows_eq]

theorem length_ytest0 (d : DataFrame) (j : Nat) :
    (ytest0 d j).length = testCount d.rows.length := by
  unfold ytest0
  rw [List.length_map, length_testIdx, nRows_eq]

theorem colIdx_of_mem :
    ∀ {l : List String} {c : String}, c ∈ l → ∃ j, colIdx l c = some j
  | x :: xs, c, h => by
    by_cases hx : x = c
    · exact ⟨0, by simp [colIdx, hx]⟩
    · rcases List.mem_cons.mp h with h | h
      · exact absurd h.symm hx
      · obtain ⟨j, hj⟩ := colIdx_of_mem h
        exact ⟨j + 1, by simp [colIdx, hx, hj]⟩

/-! ### Frame lemmas: which fields the scaling block leaves untouched -/

theorem fitAndTransform_frame (s : State) (xtr xte : List (List Entry)) :
    (fitAndTransform s xtr xte).1.data = s.data ∧
    (fitAndTransform s xtr xte).1.outcome_pointer = s.outcome_pointer ∧
    (fitAndTransform s xtr xte).1.y_train = s.y_train ∧
    (fitAndTransform s xtr xte).1.y_test = s.y_test ∧
    (fitAndTransform s xtr xte).1.X_report = s.X_report ∧
    (fitAndTransform s xtr xte).1.y_report = s.y_report ∧
    (fitAndTransform s xtr xte).1.history = s.history ∧
    (fitAndTransform s xtr xte).1.model = s.model ∧
    (fitAndTransform s xtr xte).1.scaled_inputs = s.scaled_inputs := by
  cases hsc : s.scaling_tool with
  | none => simp [fitAndTransform, hsc]
  | some sc => simp [fitAndTransform, hsc, Scaler.fit, Scaler.transformMatrix]

theorem scaleStep_frame (s : State) (scale : Bool) (tool : String)
    (xtr xte : List (List Entry)) :
    (scaleStep s scale tool xtr xte).1.data = s.data ∧
    (scaleStep s scale tool xtr xte).1.outcome_pointer = s.outcome_pointer ∧
    (scaleStep s scale tool xtr xte).1.y_train = s.y_train ∧
    (scaleStep s scale tool xtr xte).1.y_test = s.y_test ∧
    (scaleStep s scale tool xtr xte).1.X_report = s.X_report ∧
    (scaleStep s scale tool xtr xte).1.y_report = s.y_report ∧
    (scaleStep s scale tool xtr xte).1.history = s.history ∧
    (scaleStep s scale tool xtr xte).1.model = s.model := by
  cases scale with
  | false => simp [scaleStep]
  | true =>
    by_cases h1 : tool = "standard" <;> by_cases h2 : tool = "min max" <;>
      by_cases h3 : tool = "normalize" <;> cases hsc : s.scaling_tool <;>
        simp [scaleStep, fitAndTransform, h1, h2, h3, hsc, StandardScaler, MinMaxScaler,
          Scaler.fit, Scaler.transformMatrix]

/-! ### Characterizations of successful `train` runs -/

theorem train_noRes_ok (s s' : State) (scale : Bool) (tool : String) (rr : Rat)
    (ep bs v : Nat) (d : DataFrame) (c : String) (j : Nat)
    (hd : s.data = some d) (hc : s.outcome_pointer = some c)
    (hj : colIdx d.cols c = some j)
    (h : train s scale tool false rr ep bs v = (s', none)) :
    s'.y_train = some (ytrain0 d j) ∧ s'.y_test = some (ytest0 d j) ∧
    s'.X_report = some (xtest0 d j) ∧ s'.y_report = some (ytest0 d j) := by
  unfold train at h
  rw [hd, hc] at h
  dsimp only at h
  rw [hj] at h
  dsimp only at h
  unfold trainBody at h
  have hif : (if false = true then smote_fit_sample rr (xtrain0 d j) (ytrain0 d j)
      else Except.ok (xtrain0 d j, ytrain0 d j))
      = Except.ok (xtrain0 d j, ytrain0 d j) := rfl
  rw [hif] at h
  dsimp only at h
  rcases h9 : scaleStep (postResample s d j (xtrain0 d j, ytrain0 d j)) scale tool
      (xtrain0 d j) (xtest0 d j) with ⟨s9, e9⟩
  rw [h9] at h
  cases e9 with
  | some e => simp at h
  | none =>
    dsimp only at h
    have hs' : s' = { s9 with history := some (s9.model.fit (s9.X_train.getD [])
        (s9.y_train.getD []) ((33 : Rat) / 100) ep bs v) } := by
      have := (Prod.mk.injEq _ _ _ _).mp h
      exact this.1.symm
    have hfr := scaleStep_frame (postResample s d j (xtrain0 d j, ytrain0 d j))
      scale tool (xtrain0 d j) (xtest0 d j)
    rw [h9] at hfr
    simp only [postResample_y_train, postResample_y_test, postResample_X_report,
      postResample_y_report] at hfr
    refine ⟨?_, ?_, ?_, ?_⟩ <;> rw [hs'] <;>
      simp only [] <;> [exact hfr.2.2.1; exact hfr.2.2.2.1; exact hfr.2.2.2.2.1;
        exact hfr.2.2.2.2.2.1]

theorem train_noScale_ok (s s' : State) (tool : String) (res : Bool) (rr : Rat)
    (ep bs v : Nat)
    (h : train s false tool res rr ep bs v = (s', none)) :
    ∃ d c j xy, s.data = some d ∧ s.outcome_pointer = some c ∧
      colIdx d.cols c = some j ∧
      (if res then smote_fit_sample rr (xtrain0 d j) (ytrain0 d j)
       else Except.ok (xtrain0 d j, ytrain0 d j)) = Except.ok xy ∧
      s' = { postResample s d j xy with
             scaled_inputs := false
             history := some (s.model.fit xy.1 xy.2 ((33 : Rat) / 100) ep bs v) } := by
  unfold train at h
  cases hd : s.data with
  | none => rw [hd] at h; simp at h
  | some d =>
    rw [hd] at h
    dsimp only at h
    cases hc : s.outcome_pointer with
    | none => rw [hc] at h; simp at h
    | some c =>
      rw [hc] at h
      dsimp only at h
      cases hj : colIdx d.cols c with
      | none => rw [hj] at h; simp at h
      | some j =>
        rw [hj] at h
        dsimp only at h
        unfold trainBody at h
        cases hxy : (if res then smote_fit_sample rr (xtrain0 d j) (ytrain0 d j)
            else Except.ok (xtrain0 d j, ytrain0 d j)) with
        | error e => rw [hxy] at h; simp at h
        | ok xy =>
          rw [hxy] at h
          dsimp only at h
          have hss : scaleStep (postResample s d j xy) false tool xy.1 (xtest0 d j)
              = ({ postResample s d j xy with scaled_inputs := false }, none) := rfl
          rw [hss] at h
          dsimp only at h
          refine ⟨d, c, j, xy, rfl, rfl, hj, hxy, ?_⟩
          exact ((Prod.mk.injEq _ _ _ _).mp h).1.symm

theorem smote_error_valueError (rr : Rat) (X : List (List Entry)) (y : List Int)
    (e : LibError) (h : smote_fit_sample rr X y = Except.error e) :
    e = LibError.valueError := by
  simp only [smote_fit_sample] at h
  repeat' split at h <;> simp_all

/-! ### Claims -/

/-- Claim C3: for every input row and every fixed value of the override
flag, `calculate` returns the same probability whether
`predict_positive_class` (`happening`) is true or false — the two branches
of `calculate` are extensionally equal. -/
theorem C3_branches_identical (s : State) (arr : List Entry) (ov : Bool) :
    calculate s arr true ov = calculate s arr false ov := rfl

/-- Claim C2 (amended): `evaluate_outcome` performs no trained-state check;
whatever the state, its error is either absent or an error propagated from
the external libraries — never the spec's `NotTrainedError`, which the code
cannot construct.  Called before `train` it hands the absent (`None`)
`X_test` to the model's `predict_classes` and surfaces that error. -/
theorem C2_no_trained_check (s : State) :
    (evaluate_outcome s).error = none ∨
    ∃ e : LibError, (evaluate_outcome s).error = some (PyError.lib e) := by
  unfold evaluate_outcome
  split
  · exact Or.inr ⟨_, rfl⟩
  · dsimp only
    split
    · exact Or.inr ⟨_, rfl⟩
    · exact Or.inl rfl

/-- Claim C2 (counterexample): on a freshly constructed orchestrator — so
before any `train` — `evaluate_outcome` does not fail with
`NotTrainedError`; with a keras-like model it surfaces the library's
`ValueError` raised on the `None` test data. -/
theorem C2_counterexample :
    (evaluate_outcome (TrainingBase.init demoModel)).error
        = some (PyError.lib LibError.valueError) ∧
    (evaluate_outcome (TrainingBase.init demoModel)).error
        ≠ some PyError.notTrainedError := by decide

/-- Claim C4 (code bug): with `scale=True` and
`scaling_tool='normalize'`, `train` evaluates `normalize()` — a function,
not an estimator class — so it raises `TypeError`: no scaler is ever
fitted (`scaling_tool` stays `None`) and the model is never fitted
(`history` stays `None`), contradicting the claim that all three variants
yield a fitted scaler. -/
theorem C4_normalize_crash :
    (train cDemo true "normalize" false 1 150 100 0).2
        = some (PyError.lib LibError.typeError) ∧
    (train cDemo true "normalize" false 1 150 100 0).1.scaling_tool = none ∧
    (train cDemo true "normalize" false 1 150 100 0).1.history = none := by decide

/-- Claim C6 (code bug): on a trained orchestrator `evaluate_outcome`
completes without error, stores the predictions and the report string on
the instance and prints the report — but its Python return value is `None`
(the method body has no `return`), contradicting the claim (and the
method's own docstring) that the raw predictions are returned; the report
exists only as the stored/printed string, not as a returned structure. -/
theorem C6_report_stored_not_returned :
    (evaluate_outcome tDemo).error = none ∧
    (evaluate_outcome tDemo).ret = none ∧
    (evaluate_outcome tDemo).state.predictions = some [1, 1] ∧
    (evaluate_outcome tDemo).state.general_report
        = "classification_report [1, 0] [1, 1]" ∧
    (evaluate_outcome tDemo).printed
        = [(evaluate_outcome tDemo).state.general_report] := by decide

/-- Claim C7 (counterexample): after a scaled run followed by an unscaled
run on the same orchestrator, the second `train` has not fully replaced
the scaler state: `scaling_tool` still holds the scaler fitted by the
first run. -/
theorem C7_counterexample :
    s2demo.scaling_tool
        = some ⟨ScalerKind.standard, some [[50], [20], [40], [30]]⟩ ∧
    s2demo.scaling_tool = s1demo.scaling_tool ∧
    s2demo.scaling_tool ≠ none := by decide

/-- Claim C8 (counterexample): with `resample=True` and the invalid ratio
`2`, `train` fails — but with the resampling library's `ValueError`, not
with the spec's `ResampleError`, which the code never constructs. -/
theorem C8_counterexample :
    (train cDemo false "standard" true 2 150 100 0).2
        = some (PyError.lib LibError.valueError) ∧
    (train cDemo false "standard" true 2 150 100 0).2
        ≠ some PyError.resampleError := by decide

/-- Claim C10: `train` never modifies the bound raw dataset or the
outcome-column name: on every path — success or any failure — the
orchestrator's `data` and `outcome_pointer` after the call equal their
values before it. -/
theorem C10_dataset_untouched (s : State) (scale : Bool) (tool : String)
    (res : Bool) (rr : Rat) (ep bs v : Nat) :
    (train s scale tool res rr ep bs v).1.data = s.data ∧
    (train s scale tool res rr ep bs v).1.outcome_pointer = s.outcome_pointer := by
  unfold train
  cases hd : s.data with
  | none => exact ⟨hd, rfl⟩
  | some d =>
    dsimp only
    cases hc : s.outcome_pointer with
    | none => exact ⟨hd, hc⟩
    | some c =>
      dsimp only
      cases hj : colIdx d.cols c with
      | none => exact ⟨hd, hc⟩
      | some j =>
        dsimp only
        unfold trainBody
        cases hxy : (if res then smote_fit_sample rr (xtrain0 d j) (ytrain0 d j)
            else Except.ok (xtrain0 d j, ytrain0 d j)) with
        | error e =>
          dsimp only
          exact ⟨(postSplit_data s d j).trans hd, (postSplit_outcome s d j).trans hc⟩
        | ok xy =>
          dsimp only
          rcases h9 : scaleStep (postResample s d j xy) scale tool xy.1 (xtest0 d j)
            with ⟨s9, e9⟩
          have hfr := scaleStep_frame (postResample s d j xy) scale tool xy.1 (xtest0 d j)
          rw [h9] at hfr
          simp only [postResample_data, postResample_outcome] at hfr
          cases e9 with
          | some e => exact ⟨hfr.1.trans hd, hfr.2.1.trans hc⟩
          | none => exact ⟨hfr.1.trans hd, hfr.2.1.trans hc⟩

/-- Claim C5: `calculate` applies the stored scaler's transform to the
input row exactly when scaling is recorded as active and the override flag
is false; in particular with `override=True` the input goes to the model
raw even when a scaler exists in memory. -/
theorem C5_scaling_gate (s : State) (arr : List Entry) (hap ov : Bool) :
    ((s.scaled_inputs = false ∨ ov = true) →
      calculate s arr hap ov
        = (index00 (s.model.predict [arr])).mapError PyError.lib) ∧
    (∀ sc : Scaler, s.scaled_inputs = true → ov = false → s.scaling_tool = some sc →
      calculate s arr hap ov
        = ((sc.transformRow arr).mapError PyError.lib).bind
            (fun a => (index00 (s.model.predict [a])).mapError PyError.lib)) := by
  constructor
  · intro hcase
    have hcond : (s.scaled_inputs && !ov) = false := by
      rcases hcase with h | h <;> simp [h]
    simp [calculate, hcond]
  · intro sc h1 h2 hsc
    have hcond : (s.scaled_inputs && !ov) = true := by simp [h1, h2]
    cases htr : sc.transformRow arr with
    | error e => simp [calculate, hcond, hsc, htr, Except.mapError, Except.map, Except.bind]
    | ok a => simp [calculate, hcond, hsc, htr, Except.mapError, Except.map, Except.bind]

/-- Witness for C5: on a state holding a fitted scaler with the scaling
flag set, `override=True` bypasses the scaler and `override=False` routes
the input through its transform. -/
theorem C5_witness :
    calculate wit5 [Entry.num 7] true true
        = (index00 (wit5.model.predict [[Entry.num 7]])).mapError PyError.lib ∧
    calculate wit5 [Entry.num 7] true false
        = ((fittedStd.transformRow [Entry.num 7]).mapError PyError.lib).bind
            (fun a => (index00 (wit5.model.predict [a])).mapError PyError.lib) :=
  ⟨(C5_scaling_gate wit5 [Entry.num 7] true true).1 (Or.inr rfl),
   (C5_scaling_gate wit5 [Entry.num 7] true false).2 fittedStd rfl rfl rfl⟩

theorem scaleStep_unknown (s : State) (tool : String)
    (xtr xte : List (List Entry))
    (h1 : tool ≠ "standard") (h2 : tool ≠ "min max") (h3 : tool ≠ "normalize")
    (hsc : s.scaling_tool = none) :
    scaleStep s true tool xtr xte
      = ({ s with scaled_inputs := true }, some (PyError.lib LibError.attributeError)) := by
  simp [scaleStep, h1, h2, h3, fitAndTransform, hsc]

/-- Claim C9: on a freshly constructed, configured orchestrator, `train`
with `scale` set and an unrecognised scaling-tool string leaves
`scaling_tool` at its initial `None` and then fails with the
`AttributeError` from `None.fit(...)`; the run is an error, not a silent
unscaled training — the model is never fitted (`history` stays `None`). -/
theorem C9_unknown_scaling_tool (m : Model) (d : DataFrame) (c tool : String)
    (rr : Rat) (ep bs v : Nat)
    (hcfg : (configure (TrainingBase.init m) d c).2 = none)
    (h1 : tool ≠ "standard") (h2 : tool ≠ "min max") (h3 : tool ≠ "normalize") :
    (train (configure (TrainingBase.init m) d c).1 true tool false rr ep bs v).2
        = some (PyError.lib LibError.attributeError) ∧
    (train (configure (TrainingBase.init m) d c).1 true tool false rr ep bs
        v).1.scaling_tool = none ∧
    (train (configure (TrainingBase.init m) d c).1 true tool false rr ep bs
        v).1.history = none := by
  by_cases hm : c ∈ d.cols
  · have hcfg1 : (configure (TrainingBase.init m) d c).1
        = { TrainingBase.init m with data := some d, outcome_pointer := some c } := by
      simp [configure, hm]
    obtain ⟨j, hj⟩ := colIdx_of_mem hm
    rw [hcfg1]
    unfold train
    dsimp only
    rw [hj]
    dsimp only
    unfold trainBody
    have hif : (if false = true then smote_fit_sample rr (xtrain0 d j) (ytrain0 d j)
        else Except.ok (xtrain0 d j, ytrain0 d j))
        = Except.ok (xtrain0 d j, ytrain0 d j) := rfl
    rw [hif]
    dsimp only
    rw [scaleStep_unknown _ tool _ _ h1 h2 h3 (by simp [TrainingBase.init])]
    dsimp only
    exact ⟨rfl, rfl, rfl⟩
  · simp [configure, hm] at hcfg

/-- Witness for C9: concretely, `train(scale=True, scaling_tool='robust')`
on a fresh configured orchestrator raises `AttributeError` with no scaler
and no fit history. -/
theorem C9_witness :
    (train (configure (TrainingBase.init demoModel) demoDF "o").1 true "robust"
        false 1 150 100 0).2 = some (PyError.lib LibError.attributeError) ∧
    (train (configure (TrainingBase.init demoModel) demoDF "o").1 true "robust"
        false 1 150 100 0).1.scaling_tool = none ∧
    (train (configure (TrainingBase.init demoModel) demoDF "o").1 true "robust"
        false 1 150 100 0).1.history = none :=
  C9_unknown_scaling_tool demoModel demoDF "o" "robust" 1 150 100 0 (by decide)
    (by decide) (by decide) (by decide)

/-- Claim C1: on a configured dataset whose outcome column is present,
`train` (without resampling) produces train/test row subsets indexed by a
permutation-based partition of the row indices: the sizes sum to the
number of rows, the test fraction is 0.33 up to rounding, the index sets
are disjoint, and — the seed being fixed — any run on the same dataset
with the same arguments produces the identical split. -/
theorem C1_seeded_split (s s' : State) (d : DataFrame) (c : String) (j : Nat)
    (scale : Bool) (tool : String) (rr : Rat) (ep bs v : Nat)
    (hd : s.data = some d) (hc : s.outcome_pointer = some c)
    (hj : colIdx d.cols c = some j)
    (h : train s scale tool false rr ep bs v = (s', none)) :
    s'.y_train = some (ytrain0 d j) ∧ s'.y_test = some (ytest0 d j) ∧
    (ytrain0 d j).length + (ytest0 d j).length = d.rows.length ∧
    33 * d.rows.length ≤ 100 * (ytest0 d j).length ∧
    100 * (ytest0 d j).length < 33 * d.rows.length + 100 ∧
    (testIdx d.rows.length ++ trainIdx d.rows.length).Perm
      (List.range d.rows.length) ∧
    (trainIdx d.rows.length).Disjoint (testIdx d.rows.length) ∧
    ∀ t t' : State, t.data = some d → t.outcome_pointer = some c →
      train t scale tool false rr ep bs v = (t', none) →
      t'.y_train = s'.y_train ∧ t'.y_test = s'.y_test ∧
      t'.X_report = s'.X_report ∧ t'.y_report = s'.y_report := by
  obtain ⟨hy1, hy2, hr1, hr2⟩ := train_noRes_ok s s' scale tool rr ep bs v d c j hd hc hj h
  refine ⟨hy1, hy2, ?_, ?_, ?_, split_partition_perm _, disjoint_trainIdx_testIdx _, ?_⟩
  · rw [length_ytrain0, length_ytest0]
    have := testCount_le d.rows.length
    omega
  · rw [length_ytest0]
    exact (testCount_bounds d.rows.length).1
  · rw [length_ytest0]
    exact (testCount_bounds d.rows.length).2
  · intro t t' ht1 ht2 ht
    obtain ⟨hy1', hy2', hr1', hr2'⟩ :=
      train_noRes_ok t t' scale tool rr ep bs v d c j ht1 ht2 hj ht
    rw [hy1, hy2, hr1, hr2]
    exact ⟨hy1', hy2', hr1', hr2'⟩

/-- Witness for C1: on the six-row demo dataset, the split stored by a
successful run has 4 training and 2 test rows, summing to 6, and disjoint
index sets. -/
theorem C1_witness :
    (train cDemo false "standard" false 1 150 100 0).1.y_train
        = some (ytrain0 demoDF 1) ∧
    (ytrain0 demoDF 1).length + (ytest0 demoDF 1).length = demoDF.rows.length ∧
    (trainIdx demoDF.rows.length).Disjoint (testIdx demoDF.rows.length) := by
  have h2 : (train cDemo false "standard" false 1 150 100 0).2 = none := by decide
  have h : train cDemo false "standard" false 1 150 100 0
      = ((train cDemo false "standard" false 1 150 100 0).1, none) := by rw [← h2]
  have hall := C1_seeded_split cDemo _ demoDF "o" 1 false "standard" 1 150 100 0
    rfl rfl (by decide) h
  exact ⟨hall.1, hall.2.2.1, hall.2.2.2.2.2.2.1⟩

/-- Claim C7 (amended): a second `train` run with `scale` unset recomputes
split and history state purely from the bound data, outcome column, model
and arguments — no prior split/scaler/history state influences the result
— and resets `scaled_inputs`, so `calculate` on the resulting state sends
inputs to the model untransformed: the stale scaler object that may remain
in `scaling_tool` never influences inference. -/
theorem C7_no_leak_into_inference (s s' : State) (tool : String) (res : Bool)
    (rr : Rat) (ep bs v : Nat)
    (h : train s false tool res rr ep bs v = (s', none)) :
    s'.scaled_inputs = false ∧
    (∀ (arr : List Entry) (hap ov : Bool), calculate s' arr hap ov
        = (index00 (s'.model.predict [arr])).mapError PyError.lib) ∧
    ∀ t t' : State, t.data = s.data → t.outcome_pointer = s.outcome_pointer →
      t.model = s.model → train t false tool res rr ep bs v = (t', none) →
      t'.X_train = s'.X_train ∧ t'.X_test = s'.X_test ∧ t'.y_train = s'.y_train ∧
      t'.y_test = s'.y_test ∧ t'.history = s'.history := by
  obtain ⟨d, c, j, xy, hd, hc, hj, hxy, hs'⟩ := train_noScale_ok s s' tool res rr ep bs v h
  have hflag : s'.scaled_inputs = false := by rw [hs']
  refine ⟨hflag, ?_, ?_⟩
  · intro arr hap ov
    have hcond : (s'.scaled_inputs && !ov) = false := by simp [hflag]
    simp [calculate, hcond]
  · intro t t' ht1 ht2 ht3 ht
    obtain ⟨d2, c2, j2, xy2, hd2, hc2, hj2, hxy2, ht'⟩ :=
      train_noScale_ok t t' tool res rr ep bs v ht
    rw [ht1, hd] at hd2
    obtain rfl : d = d2 := (Option.some.injEq _ _).mp hd2
    rw [ht2, hc] at hc2
    obtain rfl : c = c2 := (Option.some.injEq _ _).mp hc2
    rw [hj] at hj2
    obtain rfl : j = j2 := (Option.some.injEq _ _).mp hj2
    rw [hxy] at hxy2
    obtain rfl : xy = xy2 := (Except.ok.injEq _ _).mp hxy2
    rw [ht', hs']
    simp [ht3]

/-- Witness for C7 (amended): rerunning `train` without scaling on the
previously scaled demo orchestrator yields a state with the scaling flag
off, whose `calculate` ignores the stale scaler. -/
theorem C7_witness :
    (train s1demo false "standard" false 1 150 100 0).1.scaled_inputs = false ∧
    calculate (train s1demo false "standard" false 1 150 100 0).1 [Entry.num 7] true false
        = (index00 ((train s1demo false "standard" false 1 150 100
            0).1.model.predict [[Entry.num 7]])).mapError PyError.lib := by
  have h2 : (train s1demo false "standard" false 1 150 100 0).2 = none := by decide
  have h : train s1demo false "standard" false 1 150 100 0
      = ((train s1demo false "standard" false 1 150 100 0).1, none) := by rw [← h2]
  exact ⟨(C7_no_leak_into_inference s1demo _ "standard" false 1 150 100 0 h).1,
    (C7_no_leak_into_inference s1demo _ "standard" false 1 150 100 0 h).2.1
      [Entry.num 7] true false⟩

/-- Claim C8 (amended): when `train` is called with `resample` set and the
resampling step rejects the request — classes already balanced at the
requested ratio, or an invalid ratio — `train` fails with the resampling
library's `ValueError`; the code defines no `ResampleError`. -/
theorem C8_resample_failure_is_lib (s : State) (d : DataFrame) (c : String) (j : Nat)
    (scale : Bool) (tool : String) (rr : Rat) (ep bs v : Nat) (e : LibError)
    (hd : s.data = some d) (hc : s.outcome_pointer = some c)
    (hj : colIdx d.cols c = some j)
    (hsm : smote_fit_sample rr (xtrain0 d j) (ytrain0 d j) = Except.error e) :
    (train s scale tool true rr ep bs v).2 = some (PyError.lib e) ∧
    e = LibError.valueError := by
  constructor
  · unfold train
    rw [hd]
    dsimp only
    rw [hc]
    dsimp only
    rw [hj]
    dsimp only
    unfold trainBody
    have hif : (if true = true then smote_fit_sample rr (xtrain0 d j) (ytrain0 d j)
        else Except.ok (xtrain0 d j, ytrain0 d j))
        = smote_fit_sample rr (xtrain0 d j) (ytrain0 d j) := rfl
    rw [hif, hsm]
  · exact smote_error_valueError _ _ _ _ hsm

/-- Witness for C8 (amended): on the demo dataset the training split's
classes are already balanced, so `train(resample=True, resample_ratio=1)`
fails with the library's `ValueError`. -/
theorem C8_witness :
    (train cDemo false "standard" true 1 150 100 0).2
        = some (PyError.lib LibError.valueError) ∧
    LibError.valueError = LibError.valueError :=
  C8_resample_failure_is_lib cDemo demoDF "o" 1 false "standard" 1 150 100 0
    LibError.valueError rfl rfl (by decide) (by decide)

end DeployML
